import Mathlib

/-!
Verification of the report query parser of the obsidian-clockify-integration
plugin.  The `Parser` class (construction defaults, `peek`, `consume`,
`error`, and the fixed `parse` rule sequence) and the `parseWorkspace`
grammar rule are embedded from the source.  The tokenizer and the remaining
grammar rule functions are imported by the source parser but their files are
not part of the repository snapshot; they are modelled from the
specification, as marked on each definition.
-/

/-- A lexical token: `type` is the token class name (`"KEYWORD"`, `"WORD"`,
`"DATE"`, `"NUMBER"`, `"PUNCTUATION"`, `"STRING"`), `value` the original
text. -/
structure Token where
  type : String
  value : String
deriving DecidableEq

/-- The error object produced by `Parser.error`: a named error carrying a
message. -/
structure ParsingError where
  message : String
deriving DecidableEq

/-- One include/exclude filter group of the query's `selection`. -/
structure FilterGroup where
  include_ : List String
  exclude : List String
deriving DecidableEq

/-- The three selection filter groups. -/
structure Selection where
  projects : FilterGroup
  clients : FilterGroup
  tags : FilterGroup
deriving DecidableEq

/-- The query's sort clause value. -/
structure QuerySort where
  field : String
  order : String
deriving DecidableEq

/-- The query's display-list clause value (`show` in the source; `show` is a
reserved word in Lean). -/
structure ListClause where
  show_ : List String
deriving DecidableEq

/-- A parsed date interval (`end` is a reserved word in Lean). -/
structure QueryInterval where
  start : String
  end_ : String
deriving DecidableEq

/-- The query object built by the parser, with the fields initialised in the
`Parser` constructor of the source. -/
structure Query where
  queryType : String
  interval : Option QueryInterval
  selection : Selection
  groupBy : Option String
  sort : QuerySort
  list : ListClause
  customTitle : Option String
  workspace : String
deriving DecidableEq

/-- The all-default query installed by the `Parser` constructor, including
the hardcoded `workspace: 'work'` default. -/
def defaultQuery : Query :=
  { queryType := "summary"
    interval := none
    selection :=
      { projects := { include_ := [], exclude := [] }
        clients := { include_ := [], exclude := [] }
        tags := { include_ := [], exclude := [] } }
    groupBy := none
    sort := { field := "time", order := "desc" }
    list := { show_ := ["project", "time"] }
    customTitle := none
    workspace := "work" }

/-- The state of a `Parser` instance: the token array, the cursor position
`pos`, and the query object under construction. -/
structure ParserState where
  tokens : List Token
  pos : Nat
  query : Query
deriving DecidableEq

/-- The cursor's `error` operation (`Parser.error`): constructs a named `ParsingError` carrying the message;
callers raise it. -/
def ParserState.error (_p : ParserState) (message : String) : ParsingError :=
  { message := message }

/-- Case folding to lower case (the source's `toLowerCase()`), written over
the character list. -/
def strToLower (s : String) : String :=
  String.mk (s.toList.map Char.toLower)

/-- Case folding to upper case (the source's `toUpperCase()`), written over
the character list. -/
def strToUpper (s : String) : String :=
  String.mk (s.toList.map Char.toUpper)

/-- The cursor's `peek(type, value?)` operation: true iff the current token exists, has the
given type, and (when a value is given) matches it case-insensitively.
Never advances the position. -/
def ParserState.peek (p : ParserState) (type : String) (value : Option String) : Bool :=
  match p.tokens.get? p.pos with
  | none => false
  | some t =>
    if t.type == type then
      match value with
      | none => true
      | some v => strToLower t.value == strToLower v
    else false

/-- The cursor's `consume(type?, value?)` operation: raises past end of input, raises on a
type or (case-insensitive) value mismatch, otherwise returns the current
token and advances the position by one. -/
def ParserState.consume (p : ParserState) (type value : Option String) :
    Except ParsingError (Token × ParserState) :=
  match p.tokens.get? p.pos with
  | none => Except.error (p.error "Unexpected end of input")
  | some t =>
    match type with
    | some ty =>
      if t.type == ty then
        match value with
        | some v =>
          if strToLower t.value == strToLower v then
            Except.ok (t, { p with pos := p.pos + 1 })
          else
            Except.error (p.error ("Expected \"" ++ v ++ "\" but got \"" ++ t.value ++ "\""))
        | none => Except.ok (t, { p with pos := p.pos + 1 })
      else
        Except.error (p.error ("Expected token type \"" ++ ty ++ "\" but got \"" ++ t.type ++ "\""))
    | none =>
      match value with
      | some v =>
        if strToLower t.value == strToLower v then
          Except.ok (t, { p with pos := p.pos + 1 })
        else
          Except.error (p.error ("Expected \"" ++ v ++ "\" but got \"" ++ t.value ++ "\""))
      | none => Except.ok (t, { p with pos := p.pos + 1 })

/-- The `parseWorkspace` grammar rule, embedded from
`src/lib/reports/parser/parseWorkspace.ts`: on the keyword `WORKSPACE` it
requires the next word to be `work` or `learning`, storing the token's value
in `query.workspace`; otherwise it raises. -/
def parseWorkspace (p : ParserState) : Except ParsingError ParserState :=
  if p.peek "KEYWORD" (some "WORKSPACE") then
    match p.consume (some "KEYWORD") (some "WORKSPACE") with
    | Except.error e => Except.error e
    | Except.ok (_, p1) =>
      if p1.peek "WORD" (some "work") || p1.peek "WORD" (some "learning") then
        match p1.consume (some "WORD") none with
        | Except.error e => Except.error e
        | Except.ok (t, p2) =>
          Except.ok { p2 with query := { p2.query with workspace := t.value } }
      else
        Except.error (p1.error "Expected \"work\" or \"learning\" after WORKSPACE")
  else
    Except.ok p

/-- Modelled from the spec: the reserved keyword list of the query language
(`Tokenize.ts` is not in the repository snapshot).  Keyword matching is
case-insensitive. -/
def keywords : List String :=
  ["TYPE", "BETWEEN", "FROM", "AND", "TO", "WORKSPACE", "INCLUDE", "EXCLUDE",
   "PROJECTS", "CLIENTS", "TAGS", "GROUPBY", "SORT", "ASC", "DESC", "SHOW",
   "TITLE", "TODAY", "THISWEEK"]

/-- Whitespace characters discarded by the tokenizer. -/
def isSpaceChar (c : Char) : Bool :=
  c == ' ' || c == '\t' || c == '\n' || c == '\r'

/-- Structural punctuation characters (commas, brackets). -/
def isPunctChar (c : Char) : Bool :=
  c == ',' || c == '[' || c == ']'

/-- A character that continues a word-like run: anything that is not
whitespace, punctuation or a quote (the tokenizer is lexically lenient). -/
def isWordChar (c : Char) : Bool :=
  !(isSpaceChar c || isPunctChar c || c == '"')

/-- An ISO-date-shaped run: `dddd-dd-dd`. -/
def isDateStr (s : String) : Bool :=
  match s.toList with
  | [a, b, c, d, e, f, g, h, i, j] =>
    a.isDigit && b.isDigit && c.isDigit && d.isDigit && e == '-' &&
      f.isDigit && g.isDigit && h == '-' && i.isDigit && j.isDigit
  | _ => false

/-- A numeric run: nonempty, all digits. -/
def isNumberStr (s : String) : Bool :=
  !s.toList.isEmpty && s.toList.all Char.isDigit

/-- Modelled from the spec: classification of a contiguous word-like run:
ISO-date-shaped runs become `DATE`, numeric runs `NUMBER`, runs matching a
reserved keyword (case-insensitively) `KEYWORD`, everything else `WORD`.
The token value preserves the original casing. -/
def classifyRun (s : String) : Token :=
  if isDateStr s then { type := "DATE", value := s }
  else if isNumberStr s then { type := "NUMBER", value := s }
  else if keywords.contains (strToUpper s) then { type := "KEYWORD", value := s }
  else { type := "WORD", value := s }

/-- Modelled from the spec: the tokenizer loop.  Whitespace is discarded,
commas and brackets become single-character `PUNCTUATION` tokens, quoted
runs become `STRING` tokens with the quotes stripped, and every other
contiguous run is classified by `classifyRun`.  Tokenization never fails.
The fuel argument only bounds the recursion; every step consumes at least
one character, so `tokenize` supplies enough fuel for the whole input. -/
def tokenizeGo : Nat → List Char → List Token
  | 0, _ => []
  | _, [] => []
  | fuel + 1, c :: cs =>
    if isSpaceChar c then tokenizeGo fuel cs
    else if isPunctChar c then
      { type := "PUNCTUATION", value := String.mk [c] } :: tokenizeGo fuel cs
    else if c == '"' then
      let content := cs.takeWhile (fun d => !(d == '"'))
      let rest := (cs.dropWhile (fun d => !(d == '"'))).drop 1
      { type := "STRING", value := String.mk content } :: tokenizeGo fuel rest
    else
      let run := (c :: cs).takeWhile isWordChar
      let rest := (c :: cs).dropWhile isWordChar
      classifyRun (String.mk run) :: tokenizeGo fuel rest

/-- Modelled from the spec: `tokenize(source)` produces the ordered token
sequence of the raw query text. -/
def tokenize (source : String) : List Token :=
  tokenizeGo (source.toList.length + 1) source.toList

/-- Modelled from the spec: the query-type rule.  Keyword `TYPE` followed by
one `WORD` from the closed set `summary`/`list`; an unknown value raises. -/
def parseQueryType (p : ParserState) : Except ParsingError ParserState :=
  if p.peek "KEYWORD" (some "TYPE") then
    match p.consume (some "KEYWORD") (some "TYPE") with
    | Except.error e => Except.error e
    | Except.ok (_, p1) =>
      match p1.consume (some "WORD") none with
      | Except.error e => Except.error e
      | Except.ok (t, p2) =>
        if strToLower t.value == "summary" || strToLower t.value == "list" then
          Except.ok { p2 with query := { p2.query with queryType := strToLower t.value } }
        else
          Except.error (p2.error ("Expected \"summary\" or \"list\" after TYPE but got \"" ++ t.value ++ "\""))
  else
    Except.ok p

/-- Lexicographic strict comparison of character lists, used to order
ISO-formatted date strings. -/
def charListLt : List Char → List Char → Bool
  | [], [] => false
  | [], _ :: _ => true
  | _ :: _, [] => false
  | a :: as, b :: bs =>
    if a.val < b.val then true
    else if b.val < a.val then false
    else charListLt as bs

/-- Strict lexicographic order on strings; on ISO-shaped dates this is
chronological order. -/
def strLt (a b : String) : Bool :=
  charListLt a.toList b.toList

/-- Modelled from the spec: the interval rule.  Keyword `BETWEEN`/`FROM`,
a `DATE` token, keyword `AND`/`TO`, a `DATE` token; raises when the end
date precedes the start date.  The shorthand interval keywords (`TODAY`,
`THISWEEK`) are left out: the spec records their existence and boundary
semantics as underspecified in the observed source variants. -/
def parseQueryInterval (p : ParserState) : Except ParsingError ParserState :=
  if p.peek "KEYWORD" (some "BETWEEN") || p.peek "KEYWORD" (some "FROM") then
    match p.consume (some "KEYWORD") none with
    | Except.error e => Except.error e
    | Except.ok (_, p1) =>
      match p1.consume (some "DATE") none with
      | Except.error e => Except.error e
      | Except.ok (d1, p2) =>
        match (if p2.peek "KEYWORD" (some "AND") || p2.peek "KEYWORD" (some "TO") then
                 p2.consume (some "KEYWORD") none
               else
                 Except.error (p2.error "Expected \"AND\" or \"TO\" in interval")) with
        | Except.error e => Except.error e
        | Except.ok (_, p3) =>
          match p3.consume (some "DATE") none with
          | Except.error e => Except.error e
          | Except.ok (d2, p4) =>
            if strLt d2.value d1.value then
              Except.error (p4.error "Interval end date before start date")
            else
              Except.ok { p4 with query := { p4.query with interval := some { start := d1.value, end_ := d2.value } } }
  else
    Except.ok p

/-- Consume one list identifier: a `WORD` or `NUMBER` token. -/
def consumeIdent (p : ParserState) : Except ParsingError (Token × ParserState) :=
  if p.peek "WORD" none then p.consume (some "WORD") none
  else if p.peek "NUMBER" none then p.consume (some "NUMBER") none
  else Except.error (p.error "Expected an identifier")

/-- Modelled from the spec: the comma-continuation loop of a selection
identifier list.  Each iteration consumes a comma and one identifier. -/
def identListLoop : Nat → ParserState → List String → Except ParsingError (List String × ParserState)
  | 0, p, acc => Except.ok (acc, p)
  | fuel + 1, p, acc =>
    if p.peek "PUNCTUATION" (some ",") then
      match p.consume (some "PUNCTUATION") (some ",") with
      | Except.error e => Except.error e
      | Except.ok (_, p1) =>
        match consumeIdent p1 with
        | Except.error e => Except.error e
        | Except.ok (t, p2) => identListLoop fuel p2 (acc ++ [t.value])
    else Except.ok (acc, p)

/-- Modelled from the spec: a punctuation-delimited identifier list:
`WORD`/`NUMBER` tokens separated by commas, optionally bracket-delimited. -/
def parseIdentList (p : ParserState) : Except ParsingError (List String × ParserState) :=
  if p.peek "PUNCTUATION" (some "[") then
    match p.consume (some "PUNCTUATION") (some "[") with
    | Except.error e => Except.error e
    | Except.ok (_, p1) =>
      match consumeIdent p1 with
      | Except.error e => Except.error e
      | Except.ok (t, p2) =>
        match identListLoop p2.tokens.length p2 [t.value] with
        | Except.error e => Except.error e
        | Except.ok (ids, p3) =>
          match p3.consume (some "PUNCTUATION") (some "]") with
          | Except.error e => Except.error e
          | Except.ok (_, p4) => Except.ok (ids, p4)
  else
    match consumeIdent p with
    | Except.error e => Except.error e
    | Except.ok (t, p1) =>
      match identListLoop p1.tokens.length p1 [t.value] with
      | Except.error e => Except.error e
      | Except.ok (ids, p2) => Except.ok (ids, p2)

/-- Add identifiers to the include or exclude side of a filter group;
repeated clauses accumulate rather than overwrite. -/
def FilterGroup.addIds (g : FilterGroup) (isInclude : Bool) (ids : List String) : FilterGroup :=
  if isInclude then { g with include_ := g.include_ ++ ids }
  else { g with exclude := g.exclude ++ ids }

/-- Apply one selection clause to the query's filter group named by the
entity keyword. -/
def Query.applySelection (q : Query) (entity : String) (isInclude : Bool) (ids : List String) : Query :=
  if entity == "projects" then
    { q with selection := { q.selection with projects := q.selection.projects.addIds isInclude ids } }
  else if entity == "clients" then
    { q with selection := { q.selection with clients := q.selection.clients.addIds isInclude ids } }
  else
    { q with selection := { q.selection with tags := q.selection.tags.addIds isInclude ids } }

/-- Modelled from the spec: one selection clause: `INCLUDE`/`EXCLUDE`, a
keyword naming the entity class (`PROJECTS`/`CLIENTS`/`TAGS`), and an
identifier list (the spec's worked examples write the mode keyword first:
`INCLUDE PROJECTS [a]`). -/
def parseSelectionClause (p : ParserState) : Except ParsingError ParserState :=
  match p.consume (some "KEYWORD") none with
  | Except.error e => Except.error e
  | Except.ok (mode, p1) =>
    if p1.peek "KEYWORD" (some "PROJECTS") || p1.peek "KEYWORD" (some "CLIENTS") || p1.peek "KEYWORD" (some "TAGS") then
      match p1.consume (some "KEYWORD") none with
      | Except.error e => Except.error e
      | Except.ok (ent, p2) =>
        match parseIdentList p2 with
        | Except.error e => Except.error e
        | Except.ok (ids, p3) =>
          Except.ok { p3 with query := p3.query.applySelection (strToLower ent.value) (strToLower mode.value == "include") ids }
    else
      Except.error (p1.error ("Expected \"PROJECTS\", \"CLIENTS\" or \"TAGS\" after " ++ mode.value))

/-- Modelled from the spec: the selection rule loops over consecutive
`INCLUDE`/`EXCLUDE` clauses, accumulating into the same filter groups. -/
def parseSelectionLoop : Nat → ParserState → Except ParsingError ParserState
  | 0, p => Except.ok p
  | fuel + 1, p =>
    if p.peek "KEYWORD" (some "INCLUDE") || p.peek "KEYWORD" (some "EXCLUDE") then
      match parseSelectionClause p with
      | Except.error e => Except.error e
      | Except.ok p1 => parseSelectionLoop fuel p1
    else Except.ok p

/-- Modelled from the spec: the selection rule (projects/clients/tags). -/
def parseSelection (p : ParserState) : Except ParsingError ParserState :=
  parseSelectionLoop p.tokens.length p

/-- Modelled from the spec: the group-by rule.  Keyword `GROUPBY` followed
by one `WORD` from the closed set `{project, client, entry, date}`; an
unknown value raises. -/
def parseGroupBy (p : ParserState) : Except ParsingError ParserState :=
  if p.peek "KEYWORD" (some "GROUPBY") then
    match p.consume (some "KEYWORD") (some "GROUPBY") with
    | Except.error e => Except.error e
    | Except.ok (_, p1) =>
      match p1.consume (some "WORD") none with
      | Except.error e => Except.error e
      | Except.ok (t, p2) =>
        if ["project", "client", "entry", "date"].contains (strToLower t.value) then
          Except.ok { p2 with query := { p2.query with groupBy := some (strToLower t.value) } }
        else
          Except.error (p2.error ("Expected \"project\", \"client\", \"entry\" or \"date\" after GROUPBY but got \"" ++ t.value ++ "\""))
  else
    Except.ok p

/-- Modelled from the spec: the sort rule.  Keyword `SORT`, one field
`WORD`, and an optional `ASC`/`DESC` keyword defaulting to `desc`. -/
def parseSort (p : ParserState) : Except ParsingError ParserState :=
  if p.peek "KEYWORD" (some "SORT") then
    match p.consume (some "KEYWORD") (some "SORT") with
    | Except.error e => Except.error e
    | Except.ok (_, p1) =>
      match p1.consume (some "WORD") none with
      | Except.error e => Except.error e
      | Except.ok (f, p2) =>
        if p2.peek "KEYWORD" (some "ASC") then
          match p2.consume (some "KEYWORD") (some "ASC") with
          | Except.error e => Except.error e
          | Except.ok (_, p3) =>
            Except.ok { p3 with query := { p3.query with sort := { field := strToLower f.value, order := "asc" } } }
        else if p2.peek "KEYWORD" (some "DESC") then
          match p2.consume (some "KEYWORD") (some "DESC") with
          | Except.error e => Except.error e
          | Except.ok (_, p3) =>
            Except.ok { p3 with query := { p3.query with sort := { field := strToLower f.value, order := "desc" } } }
        else
          Except.ok { p2 with query := { p2.query with sort := { field := strToLower f.value, order := "desc" } } }
  else
    Except.ok p

/-- Modelled from the spec: the comma-continuation loop of the display
list, consuming `WORD` field names in written order. -/
def showListLoop : Nat → ParserState → List String → Except ParsingError (List String × ParserState)
  | 0, p, acc => Except.ok (acc, p)
  | fuel + 1, p, acc =>
    if p.peek "PUNCTUATION" (some ",") then
      match p.consume (some "PUNCTUATION") (some ",") with
      | Except.error e => Except.error e
      | Except.ok (_, p1) =>
        match p1.consume (some "WORD") none with
        | Except.error e => Except.error e
        | Except.ok (t, p2) => showListLoop fuel p2 (acc ++ [t.value])
    else Except.ok (acc, p)

/-- Modelled from the spec: the display-list rule.  Keyword `SHOW` followed
by a comma-separated ordered sequence of field `WORD`s; the written order
is preserved. -/
def parseList (p : ParserState) : Except ParsingError ParserState :=
  if p.peek "KEYWORD" (some "SHOW") then
    match p.consume (some "KEYWORD") (some "SHOW") with
    | Except.error e => Except.error e
    | Except.ok (_, p1) =>
      match p1.consume (some "WORD") none with
      | Except.error e => Except.error e
      | Except.ok (t, p2) =>
        match showListLoop p2.tokens.length p2 [t.value] with
        | Except.error e => Except.error e
        | Except.ok (fields, p3) =>
          Except.ok { p3 with query := { p3.query with list := { show_ := fields } } }
  else
    Except.ok p

/-- Modelled from the spec: the custom-title rule.  Keyword `TITLE`
followed by a `STRING` token, stored verbatim. -/
def parseCustomTitle (p : ParserState) : Except ParsingError ParserState :=
  if p.peek "KEYWORD" (some "TITLE") then
    match p.consume (some "KEYWORD") (some "TITLE") with
    | Except.error e => Except.error e
    | Except.ok (_, p1) =>
      match p1.consume (some "STRING") none with
      | Except.error e => Except.error e
      | Except.ok (t, p2) =>
        Except.ok { p2 with query := { p2.query with customTitle := some t.value } }
  else
    Except.ok p

/-- Error-propagating sequencing of grammar rules: the first error stops
the chain. -/
def bindE (x : Except ParsingError ParserState)
    (f : ParserState → Except ParsingError ParserState) : Except ParsingError ParserState :=
  match x with
  | Except.error e => Except.error e
  | Except.ok p => f p

/-- The body of `Parser.parse`, embedded from the source: the grammar rules
run in this fixed order against the shared cursor and query object. -/
def runRules (p : ParserState) : Except ParsingError ParserState :=
  bindE (parseQueryType p) (fun p1 =>
  bindE (parseQueryInterval p1) (fun p2 =>
  bindE (parseWorkspace p2) (fun p3 =>
  bindE (parseSelection p3) (fun p4 =>
  bindE (parseGroupBy p4) (fun p5 =>
  bindE (parseSort p5) (fun p6 =>
  bindE (parseList p6) (fun p7 =>
  parseCustomTitle p7)))))))

/-- The `Parser` constructor, embedded from the source: tokenize the source
text, start at position zero, and initialise the query to the documented
defaults. -/
def mkParser (source : String) : ParserState :=
  { tokens := tokenize source, pos := 0, query := defaultQuery }

/-- The whole parse, `new Parser(source).parse()`: run the fixed rule sequence and return
the query object; the first rule error propagates out uncaught. -/
def parse (source : String) : Except ParsingError Query :=
  match runRules (mkParser source) with
  | Except.error e => Except.error e
  | Except.ok p => Except.ok p.query

/-- Modelled from the spec: the default workspace is the first/primary
entry of the collaborator-supplied list of configured workspace names
(the configuration itself is external to the parser and is absent from the
repository's parser inputs). -/
def specDefaultWorkspace (configured : List String) : Option String :=
  configured.head?

/-! ### Cursor and rule lemmas -/

theorem bindE_ok (p : ParserState) (f : ParserState → Except ParsingError ParserState) :
    bindE (Except.ok p) f = f p := rfl

theorem bindE_err (e : ParsingError) (f : ParserState → Except ParsingError ParserState) :
    bindE (Except.error e) f = Except.error e := rfl

theorem bindE_ok_iff (x : Except ParsingError ParserState)
    (f : ParserState → Except ParsingError ParserState) (p' : ParserState) :
    bindE x f = Except.ok p' ↔ ∃ p1, x = Except.ok p1 ∧ f p1 = Except.ok p' := by
  cases x <;> simp [bindE]

theorem peek_true_iff (p : ParserState) (ty : String) (v : Option String) :
    p.peek ty v = true ↔
      ∃ t, p.tokens.get? p.pos = some t ∧ t.type = ty ∧
        ∀ w, v = some w → strToLower t.value = strToLower w := by
  unfold ParserState.peek
  cases hget : p.tokens.get? p.pos with
  | none => simp
  | some t =>
    by_cases hty : t.type = ty
    · cases v with
      | none => simp [hty]
      | some w => simp [hty]
    · cases v <;> simp [hty]

theorem peek_false_past_end (p : ParserState) (ty : String) (v : Option String)
    (h : p.tokens.length ≤ p.pos) : p.peek ty v = false := by
  unfold ParserState.peek
  rw [List.get?_eq_none.mpr h]

theorem consume_ok_inv (p : ParserState) (ty v : Option String) (t : Token) (p' : ParserState)
    (h : p.consume ty v = Except.ok (t, p')) :
    p.tokens.get? p.pos = some t ∧ p' = { p with pos := p.pos + 1 } := by
  unfold ParserState.consume at h
  cases ty <;> cases v <;>
    (cases hget : p.tokens.get? p.pos <;> rw [hget] at h) <;>
    (try simp at h) <;>
    (repeat' split at h) <;> simp_all

theorem peek_false_of_kwfree (p : ParserState)
    (h : ∀ t ∈ p.tokens, t.type ≠ "KEYWORD") (v : Option String) :
    p.peek "KEYWORD" v = false := by
  unfold ParserState.peek
  cases hget : p.tokens.get? p.pos with
  | none => rfl
  | some t =>
    have ht := h t (List.get?_mem hget)
    simp [ht]

theorem parseQueryType_noop (p : ParserState)
    (h : p.peek "KEYWORD" (some "TYPE") = false) : parseQueryType p = Except.ok p := by
  unfold parseQueryType
  rw [h]
  rfl

theorem parseQueryInterval_noop (p : ParserState)
    (h1 : p.peek "KEYWORD" (some "BETWEEN") = false)
    (h2 : p.peek "KEYWORD" (some "FROM") = false) : parseQueryInterval p = Except.ok p := by
  unfold parseQueryInterval
  rw [h1, h2]
  rfl

theorem parseWorkspace_noop (p : ParserState)
    (h : p.peek "KEYWORD" (some "WORKSPACE") = false) : parseWorkspace p = Except.ok p := by
  unfold parseWorkspace
  rw [h]
  rfl

theorem parseSelectionLoop_noop (fuel : Nat) (p : ParserState)
    (h1 : p.peek "KEYWORD" (some "INCLUDE") = false)
    (h2 : p.peek "KEYWORD" (some "EXCLUDE") = false) :
    parseSelectionLoop fuel p = Except.ok p := by
  cases fuel with
  | zero => rfl
  | succ n =>
    unfold parseSelectionLoop
    rw [h1, h2]
    rfl

theorem parseSelection_noop (p : ParserState)
    (h1 : p.peek "KEYWORD" (some "INCLUDE") = false)
    (h2 : p.peek "KEYWORD" (some "EXCLUDE") = false) :
    parseSelection p = Except.ok p :=
  parseSelectionLoop_noop _ p h1 h2

theorem parseGroupBy_noop (p : ParserState)
    (h : p.peek "KEYWORD" (some "GROUPBY") = false) : parseGroupBy p = Except.ok p := by
  unfold parseGroupBy
  rw [h]
  rfl

theorem parseSort_noop (p : ParserState)
    (h : p.peek "KEYWORD" (some "SORT") = false) : parseSort p = Except.ok p := by
  unfold parseSort
  rw [h]
  rfl

theorem parseList_noop (p : ParserState)
    (h : p.peek "KEYWORD" (some "SHOW") = false) : parseList p = Except.ok p := by
  unfold parseList
  rw [h]
  rfl

theorem parseCustomTitle_noop (p : ParserState)
    (h : p.peek "KEYWORD" (some "TITLE") = false) : parseCustomTitle p = Except.ok p := by
  unfold parseCustomTitle
  rw [h]
  rfl

theorem runRules_noop (p : ParserState)
    (h : ∀ t ∈ p.tokens, t.type ≠ "KEYWORD") : runRules p = Except.ok p := by
  unfold runRules
  rw [parseQueryType_noop p (peek_false_of_kwfree p h _)]
  rw [bindE_ok]
  rw [parseQueryInterval_noop p (peek_false_of_kwfree p h _) (peek_false_of_kwfree p h _)]
  rw [bindE_ok]
  rw [parseWorkspace_noop p (peek_false_of_kwfree p h _)]
  rw [bindE_ok]
  rw [parseSelection_noop p (peek_false_of_kwfree p h _) (peek_false_of_kwfree p h _)]
  rw [bindE_ok]
  rw [parseGroupBy_noop p (peek_false_of_kwfree p h _)]
  rw [bindE_ok]
  rw [parseSort_noop p (peek_false_of_kwfree p h _)]
  rw [bindE_ok]
  rw [parseList_noop p (peek_false_of_kwfree p h _)]
  rw [bindE_ok]
  exact parseCustomTitle_noop p (peek_false_of_kwfree p h _)

theorem parseQueryType_inv (p p' : ParserState) (h : parseQueryType p = Except.ok p') :
    p'.tokens = p.tokens ∧ p'.query.workspace = p.query.workspace := by
  unfold parseQueryType at h
  split at h
  · split at h
    · simp at h
    · rename_i t1 p1 heq1
      obtain ⟨-, rfl⟩ := consume_ok_inv _ _ _ _ _ heq1
      split at h
      · simp at h
      · rename_i t2 p2 heq2
        obtain ⟨-, rfl⟩ := consume_ok_inv _ _ _ _ _ heq2
        split at h
        · simp only [Except.ok.injEq] at h
          subst h
          exact ⟨rfl, rfl⟩
        · simp at h
  · simp only [Except.ok.injEq] at h
    subst h
    exact ⟨rfl, rfl⟩

theorem consumeIdent_inv (p : ParserState) (t : Token) (p' : ParserState)
    (h : consumeIdent p = Except.ok (t, p')) : p' = { p with pos := p.pos + 1 } := by
  unfold consumeIdent at h
  split at h
  · exact (consume_ok_inv _ _ _ _ _ h).2
  · split at h
    · exact (consume_ok_inv _ _ _ _ _ h).2
    · simp at h

theorem identListLoop_inv (fuel : Nat) : ∀ (p : ParserState) (acc ids : List String)
    (p' : ParserState), identListLoop fuel p acc = Except.ok (ids, p') →
    p'.tokens = p.tokens ∧ p'.query = p.query := by
  induction fuel with
  | zero =>
    intro p acc ids p' h
    unfold identListLoop at h
    simp only [Except.ok.injEq, Prod.mk.injEq] at h
    obtain ⟨-, rfl⟩ := h
    exact ⟨rfl, rfl⟩
  | succ n ih =>
    intro p acc ids p' h
    unfold identListLoop at h
    split at h
    · split at h
      · simp at h
      · rename_i t1 p1 heq1
        obtain ⟨-, rfl⟩ := consume_ok_inv _ _ _ _ _ heq1
        split at h
        · simp at h
        · rename_i t2 p2 heq2
          have h2 := consumeIdent_inv _ _ _ heq2
          subst h2
          have hx := ih _ _ _ _ h
          exact hx
    · simp only [Except.ok.injEq, Prod.mk.injEq] at h
      obtain ⟨-, rfl⟩ := h
      exact ⟨rfl, rfl⟩

theorem parseIdentList_inv (p : ParserState) (ids : List String) (p' : ParserState)
    (h : parseIdentList p = Except.ok (ids, p')) :
    p'.tokens = p.tokens ∧ p'.query = p.query := by
  unfold parseIdentList at h
  split at h
  · split at h
    · simp at h
    · rename_i t1 p1 heq1
      obtain ⟨-, rfl⟩ := consume_ok_inv _ _ _ _ _ heq1
      split at h
      · simp at h
      · rename_i t2 p2 heq2
        have h2 := consumeIdent_inv _ _ _ heq2
        subst h2
        split at h
        · simp at h
        · rename_i ids3 p3 heq3
          obtain ⟨ht3, hq3⟩ := identListLoop_inv _ _ _ _ _ heq3
          split at h
          · simp at h
          · rename_i t4 p4 heq4
            obtain ⟨-, rfl⟩ := consume_ok_inv _ _ _ _ _ heq4
            simp only [Except.ok.injEq, Prod.mk.injEq] at h
            obtain ⟨-, rfl⟩ := h
            exact ⟨ht3, hq3⟩
  · split at h
    · simp at h
    · rename_i t1 p1 heq1
      have h1 := consumeIdent_inv _ _ _ heq1
      subst h1
      split at h
      · simp at h
      · rename_i ids2 p2 heq2
        obtain ⟨ht2, hq2⟩ := identListLoop_inv _ _ _ _ _ heq2
        simp only [Except.ok.injEq, Prod.mk.injEq] at h
        obtain ⟨-, rfl⟩ := h
        exact ⟨ht2, hq2⟩

theorem applySelection_workspace (q : Query) (e : String) (b : Bool) (ids : List String) :
    (q.applySelection e b ids).workspace = q.workspace := by
  unfold Query.applySelection
  repeat' split
  all_goals rfl

theorem parseSelectionClause_inv (p p' : ParserState)
    (h : parseSelectionClause p = Except.ok p') :
    p'.tokens = p.tokens ∧ p'.query.workspace = p.query.workspace := by
  unfold parseSelectionClause at h
  split at h
  · simp at h
  · rename_i t1 p1 heq1
    obtain ⟨-, rfl⟩ := consume_ok_inv _ _ _ _ _ heq1
    split at h
    · split at h
      · simp at h
      · rename_i t2 p2 heq2
        obtain ⟨-, rfl⟩ := consume_ok_inv _ _ _ _ _ heq2
        split at h
        · simp at h
        · rename_i ids3 p3 heq3
          obtain ⟨ht3, hq3⟩ := parseIdentList_inv _ _ _ heq3
          simp only [Except.ok.injEq] at h
          subst h
          refine ⟨ht3, ?_⟩
          rw [applySelection_workspace, hq3]
    · simp at h

theorem parseSelectionLoop_inv (fuel : Nat) : ∀ (p p' : ParserState),
    parseSelectionLoop fuel p = Except.ok p' →
    p'.tokens = p.tokens ∧ p'.query.workspace = p.query.workspace := by
  induction fuel with
  | zero =>
    intro p p' h
    unfold parseSelectionLoop at h
    simp only [Except.ok.injEq] at h
    subst h
    exact ⟨rfl, rfl⟩
  | succ n ih =>
    intro p p' h
    unfold parseSelectionLoop at h
    split at h
    · split at h
      · simp at h
      · rename_i p1 heq1
        obtain ⟨ht1, hw1⟩ := parseSelectionClause_inv _ _ heq1
        obtain ⟨ht2, hw2⟩ := ih _ _ h
        exact ⟨ht2.trans ht1, hw2.trans hw1⟩
    · simp only [Except.ok.injEq] at h
      subst h
      exact ⟨rfl, rfl⟩

theorem parseSelection_inv (p p' : ParserState) (h : parseSelection p = Except.ok p') :
    p'.tokens = p.tokens ∧ p'.query.workspace = p.query.workspace :=
  parseSelectionLoop_inv _ _ _ h

theorem parseQueryInterval_inv (p p' : ParserState)
    (h : parseQueryInterval p = Except.ok p') :
    p'.tokens = p.tokens ∧ p'.query.workspace = p.query.workspace := by
  unfold parseQueryInterval at h
  split at h
  · split at h
    · simp at h
    · rename_i t1 p1 heq1
      obtain ⟨-, rfl⟩ := consume_ok_inv _ _ _ _ _ heq1
      split at h
      · simp at h
      · rename_i d1 p2 heq2
        obtain ⟨-, rfl⟩ := consume_ok_inv _ _ _ _ _ heq2
        split at h
        · simp at h
        · rename_i t3 p3 heq3
          have h3 : p3 = { p with pos := p.pos + 1 + 1 + 1 } := by
            split at heq3
            · exact (consume_ok_inv _ _ _ _ _ heq3).2
            · simp at heq3
          subst h3
          split at h
          · simp at h
          · rename_i d2 p4 heq4
            obtain ⟨-, rfl⟩ := consume_ok_inv _ _ _ _ _ heq4
            split at h
            · simp at h
            · simp only [Except.ok.injEq] at h
              subst h
              exact ⟨rfl, rfl⟩
  · simp only [Except.ok.injEq] at h
    subst h
    exact ⟨rfl, rfl⟩

theorem parseGroupBy_inv (p p' : ParserState) (h : parseGroupBy p = Except.ok p') :
    p'.tokens = p.tokens ∧ p'.query.workspace = p.query.workspace := by
  unfold parseGroupBy at h
  split at h
  · split at h
    · simp at h
    · rename_i t1 p1 heq1
      obtain ⟨-, rfl⟩ := consume_ok_inv _ _ _ _ _ heq1
      split at h
      · simp at h
      · rename_i t2 p2 heq2
        obtain ⟨-, rfl⟩ := consume_ok_inv _ _ _ _ _ heq2
        split at h
        · simp only [Except.ok.injEq] at h
          subst h
          exact ⟨rfl, rfl⟩
        · simp at h
  · simp only [Except.ok.injEq] at h
    subst h
    exact ⟨rfl, rfl⟩

theorem parseSort_inv (p p' : ParserState) (h : parseSort p = Except.ok p') :
    p'.tokens = p.tokens ∧ p'.query.workspace = p.query.workspace := by
  unfold parseSort at h
  split at h
  · split at h
    · simp at h
    · rename_i t1 p1 heq1
      obtain ⟨-, rfl⟩ := consume_ok_inv _ _ _ _ _ heq1
      split at h
      · simp at h
      · rename_i f p2 heq2
        obtain ⟨-, rfl⟩ := consume_ok_inv _ _ _ _ _ heq2
        split at h
        · split at h
          · simp at h
          · rename_i t3 p3 heq3
            obtain ⟨-, rfl⟩ := consume_ok_inv _ _ _ _ _ heq3
            simp only [Except.ok.injEq] at h
            subst h
            exact ⟨rfl, rfl⟩
        · split at h
          · split at h
            · simp at h
            · rename_i t3 p3 heq3
              obtain ⟨-, rfl⟩ := consume_ok_inv _ _ _ _ _ heq3
              simp only [Except.ok.injEq] at h
              subst h
              exact ⟨rfl, rfl⟩
          · simp only [Except.ok.injEq] at h
            subst h
            exact ⟨rfl, rfl⟩
  · simp only [Except.ok.injEq] at h
    subst h
    exact ⟨rfl, rfl⟩

theorem showListLoop_inv (fuel : Nat) : ∀ (p : ParserState) (acc fields : List String)
    (p' : ParserState), showListLoop fuel p acc = Except.ok (fields, p') →
    p'.tokens = p.tokens ∧ p'.query = p.query := by
  induction fuel with
  | zero =>
    intro p acc fields p' h
    unfold showListLoop at h
    simp only [Except.ok.injEq, Prod.mk.injEq] at h
    obtain ⟨-, rfl⟩ := h
    exact ⟨rfl, rfl⟩
  | succ n ih =>
    intro p acc fields p' h
    unfold showListLoop at h
    split at h
    · split at h
      · simp at h
      · rename_i t1 p1 heq1
        obtain ⟨-, rfl⟩ := consume_ok_inv _ _ _ _ _ heq1
        split at h
        · simp at h
        · rename_i t2 p2 heq2
          obtain ⟨-, rfl⟩ := consume_ok_inv _ _ _ _ _ heq2
          have hx := ih _ _ _ _ h
          exact hx
    · simp only [Except.ok.injEq, Prod.mk.injEq] at h
      obtain ⟨-, rfl⟩ := h
      exact ⟨rfl, rfl⟩

theorem parseList_inv (p p' : ParserState) (h : parseList p = Except.ok p') :
    p'.tokens = p.tokens ∧ p'.query.workspace = p.query.workspace := by
  unfold parseList at h
  split at h
  · split at h
    · simp at h
    · rename_i t1 p1 heq1
      obtain ⟨-, rfl⟩ := consume_ok_inv _ _ _ _ _ heq1
      split at h
      · simp at h
      · rename_i t2 p2 heq2
        obtain ⟨-, rfl⟩ := consume_ok_inv _ _ _ _ _ heq2
        split at h
        · simp at h
        · rename_i fields3 p3 heq3
          obtain ⟨ht3, hq3⟩ := showListLoop_inv _ _ _ _ _ heq3
          simp only [Except.ok.injEq] at h
          subst h
          refine ⟨ht3, ?_⟩
          show p3.query.workspace = p.query.workspace
          rw [hq3]
  · simp only [Except.ok.injEq] at h
    subst h
    exact ⟨rfl, rfl⟩

theorem parseCustomTitle_inv (p p' : ParserState) (h : parseCustomTitle p = Except.ok p') :
    p'.tokens = p.tokens ∧ p'.query.workspace = p.query.workspace := by
  unfold parseCustomTitle at h
  split at h
  · split at h
    · simp at h
    · rename_i t1 p1 heq1
      obtain ⟨-, rfl⟩ := consume_ok_inv _ _ _ _ _ heq1
      split at h
      · simp at h
      · rename_i t2 p2 heq2
        obtain ⟨-, rfl⟩ := consume_ok_inv _ _ _ _ _ heq2
        simp only [Except.ok.injEq] at h
        subst h
        exact ⟨rfl, rfl⟩
  · simp only [Except.ok.injEq] at h
    subst h
    exact ⟨rfl, rfl⟩

theorem peek_ws_false (p : ParserState)
    (h : ∀ t ∈ p.tokens, ¬(t.type = "KEYWORD" ∧ strToLower t.value = "workspace")) :
    p.peek "KEYWORD" (some "WORKSPACE") = false := by
  unfold ParserState.peek
  cases hget : p.tokens.get? p.pos with
  | none => rfl
  | some t =>
    have ht := h t (List.get?_mem hget)
    by_cases hty : t.type = "KEYWORD"
    · have hv : strToLower t.value ≠ "workspace" := fun hv => ht ⟨hty, hv⟩
      have hws : strToLower "WORKSPACE" = "workspace" := rfl
      simp [hty, hws, hv]
    · simp [hty]

/-! ### Claims -/

/-- C1, counterexample: the claim that clause order does not affect the
parsed result fails on the spec's own example pair: the source
`GROUPBY project SORT time desc` and the source `SORT time desc GROUPBY
project` do not parse to identical Query objects. -/
theorem clause_order_counterexample :
    ¬ parse "GROUPBY project SORT time desc" = parse "SORT time desc GROUPBY project" := by
  intro hcontra
  rw [show parse "GROUPBY project SORT time desc" =
        Except.ok { defaultQuery with groupBy := some "project" } from rfl] at hcontra
  rw [show parse "SORT time desc GROUPBY project" = Except.ok defaultQuery from rfl] at hcontra
  exact absurd (Except.ok.inj hcontra) (by decide)

/-- C1, amended: the grammar rules run in one fixed sequence, each
inspecting only the current cursor position, so a clause is recognised
only when its textual position is compatible with the rule order:
`GROUPBY project SORT time desc` parses both clauses, while
`SORT time desc GROUPBY project` parses only the SORT clause and leaves
`groupBy` at its default `null`, the GROUPBY tokens being silently
ignored. -/
theorem clause_order_dependent :
    parse "GROUPBY project SORT time desc" =
      Except.ok { defaultQuery with groupBy := some "project" } ∧
    parse "SORT time desc GROUPBY project" = Except.ok defaultQuery :=
  ⟨rfl, rfl⟩

/-- C2: for every query source containing no optional clauses (no
keyword token at all), `parse` returns the all-default Query: queryType
`summary`, interval `null`, all selection groups empty, groupBy `null`,
sort `time`/`desc`, display list `[project, time]`, customTitle `null`
(and the hardcoded default workspace `work`). -/
theorem parse_defaults_when_no_clauses (s : String)
    (h : ∀ t ∈ tokenize s, t.type ≠ "KEYWORD") :
    parse s =
      Except.ok
        { queryType := "summary"
          interval := none
          selection :=
            { projects := { include_ := [], exclude := [] }
              clients := { include_ := [], exclude := [] }
              tags := { include_ := [], exclude := [] } }
          groupBy := none
          sort := { field := "time", order := "desc" }
          list := { show_ := ["project", "time"] }
          customTitle := none
          workspace := "work" } := by
  unfold parse
  rw [runRules_noop (mkParser s) h]
  rfl

theorem parse_defaults_when_no_clauses_w :
    parse "" =
      Except.ok
        { queryType := "summary"
          interval := none
          selection :=
            { projects := { include_ := [], exclude := [] }
              clients := { include_ := [], exclude := [] }
              tags := { include_ := [], exclude := [] } }
          groupBy := none
          sort := { field := "time", order := "desc" }
          list := { show_ := ["project", "time"] }
          customTitle := none
          workspace := "work" } :=
  parse_defaults_when_no_clauses "" (by decide)

/-- C3: positioned at the keyword WORKSPACE, if the following token is a
WORD in the closed enumeration `work`/`learning` (case-insensitively) the
rule consumes it and stores its value in `query.workspace`; for any other
following WORD it raises a ParsingError whose message names the permitted
values, never substituting a default. -/
theorem parseWorkspace_correct (p : ParserState) (kw t : Token)
    (hk : p.tokens.get? p.pos = some kw) (hkty : kw.type = "KEYWORD")
    (hkv : strToLower kw.value = "workspace")
    (ht : p.tokens.get? (p.pos + 1) = some t) (hty : t.type = "WORD") :
    ((strToLower t.value = "work" ∨ strToLower t.value = "learning") →
      parseWorkspace p =
        Except.ok { p with pos := p.pos + 2, query := { p.query with workspace := t.value } }) ∧
    (strToLower t.value ≠ "work" → strToLower t.value ≠ "learning" →
      parseWorkspace p =
        Except.error { message := "Expected \"work\" or \"learning\" after WORKSPACE" }) := by
  rw [List.get?_eq_getElem?] at hk ht
  constructor
  · intro hv
    unfold parseWorkspace
    rcases hv with hv | hv <;>
      simp [ParserState.peek, ParserState.consume, ParserState.error, hk, ht, hkty, hty, hkv, hv,
        show strToLower "WORKSPACE" = "workspace" from rfl,
        show strToLower "work" = "work" from rfl,
        show strToLower "learning" = "learning" from rfl]
  · intro hv1 hv2
    unfold parseWorkspace
    simp [ParserState.peek, ParserState.consume, ParserState.error, hk, ht, hkty, hty, hkv, hv1, hv2,
      show strToLower "WORKSPACE" = "workspace" from rfl,
      show strToLower "work" = "work" from rfl,
      show strToLower "learning" = "learning" from rfl]

theorem parseWorkspace_correct_w :
    parseWorkspace { tokens := [{ type := "KEYWORD", value := "WORKSPACE" }, { type := "WORD", value := "learning" }], pos := 0, query := defaultQuery } =
      Except.ok { tokens := [{ type := "KEYWORD", value := "WORKSPACE" }, { type := "WORD", value := "learning" }], pos := 2, query := { defaultQuery with workspace := "learning" } } ∧
    parseWorkspace { tokens := [{ type := "KEYWORD", value := "WORKSPACE" }, { type := "WORD", value := "bogus" }], pos := 0, query := defaultQuery } =
      Except.error { message := "Expected \"work\" or \"learning\" after WORKSPACE" } :=
  ⟨(parseWorkspace_correct
      { tokens := [{ type := "KEYWORD", value := "WORKSPACE" }, { type := "WORD", value := "learning" }], pos := 0, query := defaultQuery }
      { type := "KEYWORD", value := "WORKSPACE" } { type := "WORD", value := "learning" }
      rfl rfl rfl rfl rfl).1 (Or.inr (by decide)),
   (parseWorkspace_correct
      { tokens := [{ type := "KEYWORD", value := "WORKSPACE" }, { type := "WORD", value := "bogus" }], pos := 0, query := defaultQuery }
      { type := "KEYWORD", value := "WORKSPACE" } { type := "WORD", value := "bogus" }
      rfl rfl rfl rfl rfl).2 (by decide) (by decide)⟩

/-- C4, counterexample: the claim that the default workspace is read
from the collaborator-supplied configuration fails: the parser takes no
configuration input at all; for a configuration whose first/primary
workspace is named `alpha`, the spec-modelled default is `alpha`, while
`parse` on a source with no WORKSPACE clause yields the hardcoded
`work`. -/
theorem workspace_not_from_configuration :
    parse "" = Except.ok defaultQuery ∧ defaultQuery.workspace = "work" ∧
    specDefaultWorkspace ["alpha", "beta"] = some "alpha" ∧ ("work" : String) ≠ "alpha" :=
  ⟨rfl, rfl, rfl, by decide⟩

/-- C4, amended: for every query source containing no WORKSPACE clause,
the resulting Query's workspace field equals the string `work`, a
constant hardcoded in the Parser constructor (not read from any
configuration). -/
theorem workspace_default_hardcoded (s : String)
    (h : ∀ t ∈ tokenize s, ¬(t.type = "KEYWORD" ∧ strToLower t.value = "workspace"))
    (q : Query) (hq : parse s = Except.ok q) : q.workspace = "work" := by
  unfold parse at hq
  cases hrun : runRules (mkParser s) with
  | error e => rw [hrun] at hq; simp at hq
  | ok pf =>
    rw [hrun] at hq
    simp only [Except.ok.injEq] at hq
    subst hq
    unfold runRules at hrun
    rw [bindE_ok_iff] at hrun; obtain ⟨p1, h1, hrun⟩ := hrun
    rw [bindE_ok_iff] at hrun; obtain ⟨p2, h2, hrun⟩ := hrun
    rw [bindE_ok_iff] at hrun; obtain ⟨p3, h3, hrun⟩ := hrun
    rw [bindE_ok_iff] at hrun; obtain ⟨p4, h4, hrun⟩ := hrun
    rw [bindE_ok_iff] at hrun; obtain ⟨p5, h5, hrun⟩ := hrun
    rw [bindE_ok_iff] at hrun; obtain ⟨p6, h6, hrun⟩ := hrun
    rw [bindE_ok_iff] at hrun; obtain ⟨p7, h7, h8⟩ := hrun
    obtain ⟨ht1, hw1⟩ := parseQueryType_inv _ _ h1
    obtain ⟨ht2, hw2⟩ := parseQueryInterval_inv _ _ h2
    have htok2 : p2.tokens = tokenize s := by rw [ht2, ht1]; rfl
    have hpw : p2.peek "KEYWORD" (some "WORKSPACE") = false := by
      apply peek_ws_false
      rw [htok2]
      exact h
    rw [parseWorkspace_noop _ hpw] at h3
    obtain rfl : p2 = p3 := Except.ok.inj h3
    obtain ⟨-, hw4⟩ := parseSelection_inv _ _ h4
    obtain ⟨-, hw5⟩ := parseGroupBy_inv _ _ h5
    obtain ⟨-, hw6⟩ := parseSort_inv _ _ h6
    obtain ⟨-, hw7⟩ := parseList_inv _ _ h7
    obtain ⟨-, hw8⟩ := parseCustomTitle_inv _ _ h8
    rw [hw8, hw7, hw6, hw5, hw4, hw2, hw1]
    rfl

theorem workspace_default_hardcoded_w :
    ({ defaultQuery with groupBy := some "project" } : Query).workspace = "work" :=
  workspace_default_hardcoded "GROUPBY project" (by decide)
    { defaultQuery with groupBy := some "project" } rfl

/-- C5: `consume` called past the last token raises
`Unexpected end of input`; with a type or (case-insensitive) value
argument the current token does not match it raises a ParsingError
naming the expected token kind/value and the actual token; otherwise it
returns the current token and advances the position by exactly one. -/
theorem consume_correct (p : ParserState) :
    (p.tokens.length ≤ p.pos →
      ∀ ty v, p.consume ty v = Except.error { message := "Unexpected end of input" }) ∧
    (∀ t, p.tokens.get? p.pos = some t →
      (∀ ty v, t.type ≠ ty →
        p.consume (some ty) v =
          Except.error { message := "Expected token type \"" ++ ty ++ "\" but got \"" ++ t.type ++ "\"" }) ∧
      (∀ w, strToLower t.value ≠ strToLower w →
        p.consume none (some w) =
          Except.error { message := "Expected \"" ++ w ++ "\" but got \"" ++ t.value ++ "\"" } ∧
        p.consume (some t.type) (some w) =
          Except.error { message := "Expected \"" ++ w ++ "\" but got \"" ++ t.value ++ "\"" }) ∧
      (p.consume none none = Except.ok (t, { p with pos := p.pos + 1 }) ∧
       p.consume (some t.type) none = Except.ok (t, { p with pos := p.pos + 1 }) ∧
       (∀ w, strToLower t.value = strToLower w →
         p.consume none (some w) = Except.ok (t, { p with pos := p.pos + 1 }) ∧
         p.consume (some t.type) (some w) = Except.ok (t, { p with pos := p.pos + 1 })))) := by
  constructor
  · intro hend ty v
    unfold ParserState.consume
    rw [List.get?_eq_none.mpr hend]
    rfl
  · intro t ht
    refine ⟨?_, ?_, ?_, ?_, ?_⟩
    · intro ty v hne
      unfold ParserState.consume
      rw [ht]
      simp [hne, ParserState.error]
    · intro w hne
      constructor <;> (unfold ParserState.consume; rw [ht]; simp [hne, ParserState.error])
    · unfold ParserState.consume
      rw [ht]
    · unfold ParserState.consume
      rw [ht]
      simp
    · intro w hvw
      constructor <;> (unfold ParserState.consume; rw [ht]; simp [hvw, ParserState.error])

theorem consume_correct_w :
    ParserState.consume { tokens := [], pos := 0, query := defaultQuery } none none =
      Except.error { message := "Unexpected end of input" } ∧
    ParserState.consume { tokens := [{ type := "WORD", value := "Work" }], pos := 0, query := defaultQuery } (some "KEYWORD") none =
      Except.error { message := "Expected token type \"KEYWORD\" but got \"WORD\"" } ∧
    ParserState.consume { tokens := [{ type := "WORD", value := "Work" }], pos := 0, query := defaultQuery } (some "WORD") (some "WORK") =
      Except.ok ({ type := "WORD", value := "Work" }, { tokens := [{ type := "WORD", value := "Work" }], pos := 1, query := defaultQuery }) :=
  ⟨(consume_correct { tokens := [], pos := 0, query := defaultQuery }).1 (by decide) none none,
   (((consume_correct { tokens := [{ type := "WORD", value := "Work" }], pos := 0, query := defaultQuery }).2
      { type := "WORD", value := "Work" } rfl).1 "KEYWORD" none (by decide)),
   (((consume_correct { tokens := [{ type := "WORD", value := "Work" }], pos := 0, query := defaultQuery }).2
      { type := "WORD", value := "Work" } rfl).2.2.2.2 "WORK" (by decide)).2⟩

/-- C6: `peek(type, value?)` is true iff the token at the current
position exists, has the given type and, when a value is given, matches
it case-insensitively; it is a pure Bool-valued function (never raises,
never advances the position) and is false past end-of-input. -/
theorem peek_correct (p : ParserState) (ty : String) (v : Option String) :
    (p.peek ty v = true ↔
      ∃ t, p.tokens.get? p.pos = some t ∧ t.type = ty ∧
        ∀ w, v = some w → strToLower t.value = strToLower w) ∧
    (p.tokens.length ≤ p.pos → p.peek ty v = false) :=
  ⟨peek_true_iff p ty v, peek_false_past_end p ty v⟩

theorem peek_correct_w :
    ParserState.peek { tokens := [], pos := 0, query := defaultQuery } "WORD" none = false :=
  (peek_correct { tokens := [], pos := 0, query := defaultQuery } "WORD" none).2 (by decide)

/-- C7: for every interval clause `BETWEEN <date1> AND <date2>`: if
`date1 <= date2` (that is, `strLt v2 v1 = false` in the lexicographic
order on the ISO date strings) the resulting Query's interval equals
exactly the pair start `date1`, end `date2`; if `date1 > date2` the
parse raises a ParsingError. -/
theorem interval_rule_correct (v1 v2 : String) :
    (strLt v2 v1 = false →
      runRules { tokens := [{ type := "KEYWORD", value := "BETWEEN" }, { type := "DATE", value := v1 }, { type := "KEYWORD", value := "AND" }, { type := "DATE", value := v2 }], pos := 0, query := defaultQuery } =
        Except.ok { tokens := [{ type := "KEYWORD", value := "BETWEEN" }, { type := "DATE", value := v1 }, { type := "KEYWORD", value := "AND" }, { type := "DATE", value := v2 }], pos := 4, query := { defaultQuery with interval := some { start := v1, end_ := v2 } } }) ∧
    (strLt v2 v1 = true →
      runRules { tokens := [{ type := "KEYWORD", value := "BETWEEN" }, { type := "DATE", value := v1 }, { type := "KEYWORD", value := "AND" }, { type := "DATE", value := v2 }], pos := 0, query := defaultQuery } =
        Except.error { message := "Interval end date before start date" }) := by
  have key : parseQueryInterval { tokens := [{ type := "KEYWORD", value := "BETWEEN" }, { type := "DATE", value := v1 }, { type := "KEYWORD", value := "AND" }, { type := "DATE", value := v2 }], pos := 0, query := defaultQuery } =
      (if strLt v2 v1 then Except.error { message := "Interval end date before start date" }
       else Except.ok { tokens := [{ type := "KEYWORD", value := "BETWEEN" }, { type := "DATE", value := v1 }, { type := "KEYWORD", value := "AND" }, { type := "DATE", value := v2 }], pos := 4, query := { defaultQuery with interval := some { start := v1, end_ := v2 } } }) := rfl
  constructor
  · intro h
    unfold runRules
    rw [show parseQueryType { tokens := [{ type := "KEYWORD", value := "BETWEEN" }, { type := "DATE", value := v1 }, { type := "KEYWORD", value := "AND" }, { type := "DATE", value := v2 }], pos := 0, query := defaultQuery } =
          Except.ok { tokens := [{ type := "KEYWORD", value := "BETWEEN" }, { type := "DATE", value := v1 }, { type := "KEYWORD", value := "AND" }, { type := "DATE", value := v2 }], pos := 0, query := defaultQuery } from rfl]
    rw [bindE_ok]
    rw [key, if_neg (by simp [h])]
    rw [bindE_ok]
    rfl
  · intro h
    unfold runRules
    rw [show parseQueryType { tokens := [{ type := "KEYWORD", value := "BETWEEN" }, { type := "DATE", value := v1 }, { type := "KEYWORD", value := "AND" }, { type := "DATE", value := v2 }], pos := 0, query := defaultQuery } =
          Except.ok { tokens := [{ type := "KEYWORD", value := "BETWEEN" }, { type := "DATE", value := v1 }, { type := "KEYWORD", value := "AND" }, { type := "DATE", value := v2 }], pos := 0, query := defaultQuery } from rfl]
    rw [bindE_ok]
    rw [key, if_pos h]
    rfl

theorem interval_rule_correct_w :
    runRules { tokens := [{ type := "KEYWORD", value := "BETWEEN" }, { type := "DATE", value := "2024-01-01" }, { type := "KEYWORD", value := "AND" }, { type := "DATE", value := "2024-01-31" }], pos := 0, query := defaultQuery } =
      Except.ok { tokens := [{ type := "KEYWORD", value := "BETWEEN" }, { type := "DATE", value := "2024-01-01" }, { type := "KEYWORD", value := "AND" }, { type := "DATE", value := "2024-01-31" }], pos := 4, query := { defaultQuery with interval := some { start := "2024-01-01", end_ := "2024-01-31" } } } ∧
    runRules { tokens := [{ type := "KEYWORD", value := "BETWEEN" }, { type := "DATE", value := "2024-02-01" }, { type := "KEYWORD", value := "AND" }, { type := "DATE", value := "2024-01-01" }], pos := 0, query := defaultQuery } =
      Except.error { message := "Interval end date before start date" } :=
  ⟨(interval_rule_correct "2024-01-01" "2024-01-31").1 (by decide),
   (interval_rule_correct "2024-02-01" "2024-01-01").2 (by decide)⟩

/-- C8: when a grammar rule fails, the first ParsingError propagates out
of `parse` uncaught, and `parse` yields no partial Query: a caller
receives either a fully built Query or an error, never both. -/
theorem parse_error_propagation (s : String) :
    (∀ e, runRules (mkParser s) = Except.error e →
      parse s = Except.error e ∧ ∀ q, parse s ≠ Except.ok q) ∧
    (∀ q, parse s = Except.ok q →
      ∃ p', runRules (mkParser s) = Except.ok p' ∧ p'.query = q) := by
  constructor
  · intro e he
    unfold parse
    rw [he]
    exact ⟨rfl, fun q hq => by simp at hq⟩
  · intro q hq
    unfold parse at hq
    cases hrun : runRules (mkParser s) with
    | error e => rw [hrun] at hq; simp at hq
    | ok p' =>
      rw [hrun] at hq
      simp only [Except.ok.injEq] at hq
      exact ⟨p', rfl, hq⟩

theorem parse_error_propagation_w :
    parse "WORKSPACE bogus" =
      Except.error { message := "Expected \"work\" or \"learning\" after WORKSPACE" } ∧
    ∀ q, parse "WORKSPACE bogus" ≠ Except.ok q :=
  (parse_error_propagation "WORKSPACE bogus").1
    { message := "Expected \"work\" or \"learning\" after WORKSPACE" } rfl

/-- C9: determinism: re-parsing the same source text yields structurally
equal results; in this embedding `parse` is a pure function of the
source text alone (no state is shared between invocations), so two
parses of one text cannot disagree. -/
theorem parse_deterministic (s : String) :
    (∀ q1 q2, parse s = Except.ok q1 → parse s = Except.ok q2 → q1 = q2) ∧
    (∀ e1 e2, parse s = Except.error e1 → parse s = Except.error e2 → e1 = e2) := by
  constructor
  · intro q1 q2 h1 h2
    rw [h1] at h2
    exact Except.ok.inj h2
  · intro e1 e2 h1 h2
    rw [h1] at h2
    exact Except.error.inj h2

theorem parse_deterministic_w : defaultQuery = defaultQuery :=
  (parse_deterministic "").1 defaultQuery defaultQuery rfl rfl

/-- C10: `parse` never checks that the whole token stream was consumed:
whenever the rule sequence succeeds with tokens left over, `parse`
returns the Query built so far without raising, silently ignoring the
leftover tokens. -/
theorem parse_ignores_leftover (s : String) (p' : ParserState)
    (h : runRules (mkParser s) = Except.ok p') (hleft : p'.pos < p'.tokens.length) :
    parse s = Except.ok p'.query := by
  unfold parse
  rw [h]

theorem parse_ignores_leftover_w : parse "hello world" = Except.ok defaultQuery :=
  parse_ignores_leftover "hello world"
    { tokens := [{ type := "WORD", value := "hello" }, { type := "WORD", value := "world" }], pos := 0, query := defaultQuery }
    rfl (by decide)
